import Mathlib

/- Shallow embedding of the matching-and-scoring engine of the Huykatack
healthcare triage services: src/services/predict.py,
src/services/skin_model_predict.py and src/services/app_streamlit.py.
Python floats are modelled as exact rationals, Python lists as Lean
lists, and Python dicts as insertion-ordered association lists. The
out-of-scope collaborators (CSV/JSON loading, the CNN model, prompt
templating, timestamps) are represented by parameters or omitted
fields, as the specification designates them external. -/

/-- Python str.lower for the ASCII strings used throughout the sources. -/
def pyLower (s : String) : String := ⟨s.data.map Char.toLower⟩

/-- Python str.strip: drop whitespace from both ends of a string. -/
def pyStrip (s : String) : String :=
  ⟨((s.data.dropWhile Char.isWhitespace).reverse.dropWhile Char.isWhitespace).reverse⟩

/-- Boolean test that pat occurs at the start of l. -/
def startsWithB : List Char → List Char → Bool
  | [], _ => true
  | _ :: _, [] => false
  | a :: as, b :: bs => a = b && startsWithB as bs

/-- Helper for pyIn: does pat occur as a contiguous run inside the list. -/
def substrAux (pat : List Char) : List Char → Bool
  | [] => startsWithB pat []
  | c :: rest => startsWithB pat (c :: rest) || substrAux pat rest

/-- The Python expression needle in hay, on strings. -/
def pyIn (needle hay : String) : Bool := substrAux needle.data hay.data

/-- Python str.replace on character lists, left to right and
non-overlapping; fuel-indexed (fuel = length of the text suffices) so
the kernel can evaluate it. -/
def replaceFuel (pat rep : List Char) : Nat → List Char → List Char
  | _, [] => []
  | 0, l => l
  | fuel + 1, c :: rest =>
    if startsWithB pat (c :: rest) && !pat.isEmpty then
      rep ++ replaceFuel pat rep fuel (List.drop (pat.length - 1) rest)
    else c :: replaceFuel pat rep fuel rest

/-- Python str.replace (every occurrence, for a non-empty pattern,
which is the only way the sources use it). -/
def pyReplace (s pat rep : String) : String :=
  ⟨replaceFuel pat.data rep.data s.data.length s.data⟩

/-- Deduplication keeping first occurrences: a deterministic
representative of the Python list(set(xs)) conversion. Python set
iteration order is unspecified; every theorem below is insensitive to
the order chosen here. -/
def pySetAux {α : Type} [DecidableEq α] : List α → List α → List α
  | [], _ => []
  | x :: xs, seen => if x ∈ seen then pySetAux xs seen else x :: pySetAux xs (x :: seen)

/-- Python list(set(l)) with the first-occurrence order convention. -/
def pySet {α : Type} [DecidableEq α] (l : List α) : List α := pySetAux l []

/-- Python round(q, 1): round to one decimal, halves to even (the
decimal halfway values arising here are exactly representable as
floats, where Python rounds them to even). -/
def pyRound10 (q : ℚ) : ℚ :=
  (if 10 * q - (⌊10 * q⌋ : ℚ) < 1 / 2 then (⌊10 * q⌋ : ℚ)
   else if 10 * q - (⌊10 * q⌋ : ℚ) > 1 / 2 then (⌊10 * q⌋ : ℚ) + 1
   else if ⌊10 * q⌋ % 2 = 0 then (⌊10 * q⌋ : ℚ) else (⌊10 * q⌋ : ℚ) + 1) / 10

theorem pyRound10_nonneg {q : ℚ} (h : 0 ≤ q) : 0 ≤ pyRound10 q := by
  have hf : (0 : ℤ) ≤ ⌊10 * q⌋ := Int.floor_nonneg.mpr (by positivity)
  have hf' : (0 : ℚ) ≤ (⌊10 * q⌋ : ℚ) := by exact_mod_cast hf
  unfold pyRound10
  split_ifs <;> positivity

theorem pyRound10_le_int {q : ℚ} {n : ℤ} (h : q ≤ (n : ℚ)) : pyRound10 q ≤ (n : ℚ) := by
  have hx : 10 * q ≤ ((10 * n : ℤ) : ℚ) := by push_cast; linarith
  have hf : ⌊10 * q⌋ ≤ 10 * n := by
    have := Int.floor_le_floor hx
    rwa [Int.floor_intCast] at this
  have hfl : (⌊10 * q⌋ : ℚ) ≤ 10 * q := Int.floor_le _
  unfold pyRound10
  split_ifs with h1 h2 h3
  · rw [div_le_iff₀ (by norm_num : (0:ℚ) < 10)]
    calc (⌊10 * q⌋ : ℚ) ≤ ((10 * n : ℤ) : ℚ) := by exact_mod_cast hf
    _ = (n : ℚ) * 10 := by push_cast; ring
  all_goals {
    rw [div_le_iff₀ (by norm_num : (0:ℚ) < 10)]
    have hlt : ⌊10 * q⌋ < 10 * n := by
      by_contra hcon
      have he : ⌊10 * q⌋ = 10 * n := le_antisymm hf (not_lt.mp hcon)
      have : 10 * q - (⌊10 * q⌋ : ℚ) ≤ 0 := by
        rw [he]; push_cast; linarith
      linarith
    have : (⌊10 * q⌋ : ℚ) + 1 ≤ ((10 * n : ℤ) : ℚ) := by exact_mod_cast hlt
    push_cast at this ⊢
    linarith }

theorem pyRound10_intCast (n : ℤ) : pyRound10 (n : ℚ) = (n : ℚ) := by
  unfold pyRound10
  have h : (10 : ℚ) * (n : ℚ) = ((10 * n : ℤ) : ℚ) := by push_cast; ring
  rw [h, Int.floor_intCast]
  push_cast
  rw [if_pos (by linarith)]
  ring

/-- Stable insertion for a descending sort: the new element goes after
every element of strictly greater key. Folded from the right this is a
stable descending sort, matching Python list.sort(key, reverse=True). -/
def insertKeyDesc {α : Type} (key : α → ℚ) (x : α) : List α → List α
  | [] => [x]
  | y :: ys => if key y > key x then y :: insertKeyDesc key x ys else x :: y :: ys

/-- Stable sort by descending key, as Python sort(key=..., reverse=True). -/
def pySortDesc {α : Type} (key : α → ℚ) (l : List α) : List α :=
  l.foldr (insertKeyDesc key) []

theorem mem_insertKeyDesc {α : Type} {key : α → ℚ} {b x : α} {l : List α} :
    b ∈ insertKeyDesc key x l ↔ b = x ∨ b ∈ l := by
  induction l with
  | nil => simp [insertKeyDesc]
  | cons y ys ih =>
    by_cases hc : key y > key x
    · simp only [insertKeyDesc, if_pos hc, List.mem_cons, ih]
      tauto
    · simp only [insertKeyDesc, if_neg hc, List.mem_cons]

theorem sorted_insertKeyDesc {α : Type} {key : α → ℚ} {x : α} {l : List α}
    (h : l.Pairwise (fun a b => key b ≤ key a)) :
    (insertKeyDesc key x l).Pairwise (fun a b => key b ≤ key a) := by
  induction l with
  | nil => simp [insertKeyDesc]
  | cons y ys ih =>
    obtain ⟨hy, hys⟩ := List.pairwise_cons.mp h
    by_cases hc : key y > key x
    · simp only [insertKeyDesc, if_pos hc]
      refine List.Pairwise.cons ?_ (ih hys)
      intro b hb
      rcases mem_insertKeyDesc.mp hb with rfl | hb
      · exact le_of_lt hc
      · exact hy b hb
    · simp only [insertKeyDesc, if_neg hc]
      refine List.Pairwise.cons ?_ (List.Pairwise.cons hy hys)
      intro b hb
      rcases List.mem_cons.mp hb with rfl | hb
      · exact le_of_not_lt hc
      · exact le_trans (hy b hb) (le_of_not_lt hc)

theorem pySortDesc_sorted {α : Type} (key : α → ℚ) (l : List α) :
    (pySortDesc key l).Pairwise (fun a b => key b ≤ key a) := by
  induction l with
  | nil => simp [pySortDesc]
  | cons x xs ih => exact sorted_insertKeyDesc ih

theorem mem_pySortDesc {α : Type} {key : α → ℚ} {b : α} {l : List α} :
    b ∈ pySortDesc key l ↔ b ∈ l := by
  induction l with
  | nil => simp [pySortDesc]
  | cons x xs ih =>
    simp only [pySortDesc, List.foldr] at *
    rw [mem_insertKeyDesc, ih, List.mem_cons]

/- =============================================================
src/services/predict.py — SymptomPredictor
============================================================= -/

/-- The static synonym table of SymptomPredictor.normalize_symptom. -/
def symptom_mappings : List (String × String) := [
  ("runny_nose", "runny_nose"),
  ("stuffy_nose", "congestion"),
  ("blocked_nose", "congestion"),
  ("stomach_ache", "stomach_pain"),
  ("belly_pain", "abdominal_pain"),
  ("difficulty_breathing", "breathlessness"),
  ("shortness_of_breath", "breathlessness"),
  ("high_temperature", "high_fever"),
  ("temperature", "fever"),
  ("tiredness", "fatigue"),
  ("exhaustion", "fatigue"),
  ("throwing_up", "vomiting"),
  ("loose_stools", "diarrhoea"),
  ("loose_motions", "diarrhoea"),
  ("head_pain", "headache"),
  ("migraine", "headache"),
  ("back_ache", "back_pain"),
  ("neck_ache", "neck_pain"),
  ("joint_ache", "joint_pain"),
  ("muscle_ache", "muscle_pain"),
  ("body_pain", "muscle_pain"),
  ("skin_irritation", "skin_rash"),
  ("rash", "skin_rash"),
  ("scratching", "itching"),
  ("burning_sensation", "burning_micturition")]

/-- SymptomPredictor.normalize_symptom: lowercase, strip, spaces and
hyphens to underscores, then the synonym table with passthrough. -/
def normalize_symptom (symptom : String) : String :=
  let n1 := pyStrip (pyLower symptom)
  let n2 : String := ⟨n1.data.map fun c => if c = ' ' then '_' else c⟩
  let n3 : String := ⟨n2.data.map fun c => if c = '-' then '_' else c⟩
  match symptom_mappings.find? (fun m => m.1 = n3) with
  | some m => m.2
  | none => n3

/-- SymptomPredictor._calculate_similarity: Jaccard similarity of the
character sets of the two strings. -/
def calculate_similarity (str1 str2 : String) : ℚ :=
  if str1 = "" || str2 = "" then 0
  else
    let set1 := pySet (pyLower str1).data
    let set2 := pySet (pyLower str2).data
    let inter := (set1.filter (fun c => c ∈ set2)).length
    let uni := (pySet (set1 ++ set2)).length
    if uni > 0 then (inter : ℚ) / (uni : ℚ) else 0

/-- SymptomPredictor.find_matching_symptoms: per input symptom a direct
vocabulary hit, else the first fuzzy hit (substring either way, or
Jaccard similarity above 0.8), then the list(set(...)) deduplication.
The per-symptom conditional append of the Python loop is rendered as a
filterMap. -/
def find_matching_symptoms (symptoms_list : List String) (input_symptoms : List String) :
    List String :=
  pySet <| input_symptoms.filterMap fun symptom =>
    let normalized := normalize_symptom symptom
    if normalized ∈ symptoms_list then some normalized
    else symptoms_list.find? fun ds =>
      pyIn normalized ds || pyIn ds normalized ||
        decide (calculate_similarity normalized ds > 8 / 10)

/-- One entry of the predict_diseases result list (the note key is only
present on the fallback placeholder). -/
structure Prediction where
  disease : String
  probability : ℚ
  matching_symptoms : List String
  confidence : ℕ
  note : Option String
deriving DecidableEq

/-- One row of the disease dataset CSV: the Disease cell plus the other
cells; a cell different from 0 carries one symptom name, per the
row[col] != 0 test in _predict_with_data. -/
structure DataRow where
  disease : String
  cells : List String
deriving DecidableEq

/-- The probability formula of _predict_with_data: the zero-guarded
precision and recall of the symptom overlap, their harmonic mean scaled
to a percentage, capped at 95. -/
def dataProbability (matching_count total_input total_disease : ℕ) : ℚ :=
  let precision : ℚ := if total_input > 0 then (matching_count : ℚ) / (total_input : ℚ) else 0
  let recallQ : ℚ := if total_disease > 0 then (matching_count : ℚ) / (total_disease : ℚ) else 0
  let f1 : ℚ := if precision + recallQ > 0 then 2 * precision * recallQ / (precision + recallQ) else 0
  min (f1 * 100) 95

/-- The body of the per-row loop of SymptomPredictor._predict_with_data,
as an optional candidate prediction. -/
def rowCandidate (symptoms : List String) (row : DataRow) : Option Prediction :=
  let disease_symptoms := row.cells.filter (fun c => c ≠ "0")
  let matching := (pySet symptoms).filter (fun s => s ∈ disease_symptoms)
  let probability : ℚ := dataProbability matching.length symptoms.length disease_symptoms.length
  if matching.length > 0 then
    if probability > 10 then
      some ⟨row.disease, pyRound10 probability, matching, min (matching.length * 20) 90, none⟩
    else none
  else none

/-- SymptomPredictor._predict_with_data: score every dataset row, keep
the candidates, sort by descending probability, return the top N. -/
def predict_with_data (rows : List DataRow) (symptoms : List String) (top_n : ℕ) : List Prediction :=
  (pySortDesc (fun p => p.probability) (rows.filterMap (rowCandidate symptoms))).take top_n

/-- One entry of the static rule table of _predict_with_rules. -/
structure DiseaseRule where
  name : String
  symptoms : List String
  base_probability : ℚ
deriving DecidableEq

/-- The disease_rules table of SymptomPredictor._predict_with_rules. -/
def disease_rules : List DiseaseRule := [
  ⟨"Common Cold", ["runny_nose", "congestion", "sneezing", "cough", "mild_fever", "sore_throat"], 70⟩,
  ⟨"Flu", ["high_fever", "muscle_pain", "fatigue", "headache", "cough", "chills"], 65⟩,
  ⟨"Migraine", ["headache", "nausea", "vomiting", "visual_disturbances", "sensitivity_to_light"], 80⟩,
  ⟨"Gastroenteritis", ["nausea", "vomiting", "diarrhoea", "abdominal_pain", "fever"], 75⟩,
  ⟨"Allergic Reaction", ["skin_rash", "itching", "sneezing", "watering_from_eyes", "swelling"], 70⟩,
  ⟨"Hypertension", ["headache", "dizziness", "chest_pain", "shortness_of_breath"], 60⟩,
  ⟨"Urinary Tract Infection", ["burning_micturition", "frequent_urination", "abdominal_pain", "fever"], 85⟩]

/-- The probability formula of _predict_with_rules: the base probability
scaled by the matched fraction of the rule symptoms, capped at 90. -/
def ruleProbability (base : ℚ) (matched total : ℕ) : ℚ :=
  min (base * ((matched : ℚ) / (total : ℚ))) 90

/-- The body of the per-rule loop of _predict_with_rules, as an optional
candidate prediction. -/
def ruleCandidate (symptoms : List String) (rule : DiseaseRule) : Option Prediction :=
  let matching := (pySet symptoms).filter (fun s => s ∈ rule.symptoms)
  if matching.length > 0 then
    let probability : ℚ := ruleProbability rule.base_probability matching.length rule.symptoms.length
    if probability > 15 then
      some ⟨rule.name, pyRound10 probability, matching, min (matching.length * 25) 85, none⟩
    else none
  else none

/-- SymptomPredictor._predict_with_rules. -/
def predict_with_rules (symptoms : List String) (top_n : ℕ) : List Prediction :=
  (pySortDesc (fun p => p.probability) (disease_rules.filterMap (ruleCandidate symptoms))).take top_n

/-- SymptomPredictor._get_fallback_predictions. -/
def get_fallback_predictions (symptoms : List String) : List Prediction :=
  [⟨"General Consultation Recommended", 50, symptoms, 30,
    some "Symptoms do not match common patterns. Professional medical consultation recommended."⟩]

/-- The loaded state of a SymptomPredictor: the symptom vocabulary and
the optionally available disease dataset. -/
structure Predictor where
  symptoms_list : List String
  disease_data : Option (List DataRow)

/-- SymptomPredictor.predict_diseases. -/
def predict_diseases (p : Predictor) (symptoms : List String) (top_n : ℕ) : List Prediction :=
  if symptoms = [] then []
  else
    let matching := find_matching_symptoms p.symptoms_list symptoms
    if matching = [] then get_fallback_predictions symptoms
    else match p.disease_data with
      | some rows => predict_with_data rows matching top_n
      | none => predict_with_rules matching top_n

/-- SymptomPredictor._create_fallback_symptoms: the vocabulary in effect
when the symptoms JSON is absent — the repository ships neither data
file, so this is the vocabulary of the shipped program. -/
def fallback_symptoms : List String := [
  "fever", "headache", "cough", "fatigue", "nausea", "vomiting",
  "diarrhea", "abdominal_pain", "chest_pain", "shortness_of_breath",
  "dizziness", "muscle_pain", "joint_pain", "skin_rash", "itching",
  "runny_nose", "sore_throat", "sneezing", "body_aches", "chills"]

/-- Predictor state with both data files missing: fallback vocabulary
and the rule strategy. -/
def predictor_no_data : Predictor := ⟨fallback_symptoms, none⟩

/-- The high-risk token list of SymptomPredictor.get_recommendations. -/
def high_risk_symptoms : List String :=
  ["chest_pain", "difficulty_breathing", "severe_headache", "high_fever", "severe_abdominal_pain"]

/-- Python str of a list of strings: bracketed, comma separated, each
element between single quotes (character code 39). -/
def pyStrList (l : List String) : String :=
  let q : String := ⟨[Char.ofNat 39]⟩
  "[" ++ String.intercalate ", " (l.map fun s => q ++ s ++ q) ++ "]"

/-- The recommendation bundle returned by get_recommendations. -/
structure Recommendations where
  urgency : String
  recommendations : List String
  self_care : List String
  warning_signs : List String
deriving DecidableEq

/-- SymptomPredictor.get_recommendations. The urgency is assigned
sequentially as in the source: Low, overridden by Medium when the top
probability exceeds 70, by High when it exceeds 85, and finally by High
when a high-risk token occurs inside str(matching_symptoms). -/
def get_recommendations (predictions : List Prediction) : Recommendations :=
  match predictions with
  | [] =>
    ⟨"Medium",
     ["Consult with a healthcare provider for proper evaluation"],
     ["Monitor symptoms", "Rest and stay hydrated"],
     ["Worsening symptoms", "High fever", "Difficulty breathing"]⟩
  | top_prediction :: _ =>
    let probability := top_prediction.probability
    let u1 := if probability > 70 then "Medium" else "Low"
    let u2 := if probability > 85 then "High" else u1
    let urgency :=
      if high_risk_symptoms.any (fun s => pyIn s (pyStrList top_prediction.matching_symptoms))
      then "High" else u2
    ⟨urgency,
     (if urgency = "High" then
        ["Seek immediate medical attention",
         "Consider visiting emergency room if symptoms are severe",
         "Do not delay medical care"]
      else if urgency = "Medium" then
        ["Schedule appointment with healthcare provider within 24-48 hours",
         "Monitor symptoms closely",
         "Seek immediate care if symptoms worsen"]
      else
        ["Consider consulting healthcare provider if symptoms persist",
         "Monitor symptoms for changes",
         "Practice self-care measures"]),
     ["Get adequate rest", "Stay well hydrated", "Eat nutritious foods",
      "Avoid strenuous activities"],
     ["Symptoms worsen significantly",
      "Development of high fever (>101.3°F/38.5°C)",
      "Difficulty breathing or chest pain",
      "Severe or persistent vomiting",
      "Signs of dehydration"]⟩

/- =============================================================
src/services/skin_model_predict.py — SkinConditionPredictor
============================================================= -/

/-- One entry of the static skin-condition knowledge base. -/
structure ConditionProfile where
  name : String
  description : String
  common_locations : List String
  visual_characteristics : List String
  symptoms : List String
  severity_levels : List String
  age_groups : List String
  treatment_options : List String
  urgency : String
deriving DecidableEq

def dfu_profile : ConditionProfile :=
  ⟨"Diabetic_Foot_Ulcer",
   "A serious complication of diabetes affecting the feet, requiring immediate medical attention",
   ["feet", "toes", "heel", "ankle"],
   ["open_wound", "ulceration", "infection", "poor_healing"],
   ["foot_pain", "swelling", "discharge", "redness", "warmth"],
   ["moderate", "severe", "critical"], ["adults", "elderly"],
   ["immediate_medical_care", "wound_management", "infection_control"], "high"⟩

def acne_profile : ConditionProfile :=
  ⟨"Acne",
   "A skin condition that occurs when hair follicles become plugged with oil and dead skin cells",
   ["face", "chest", "back", "shoulders"],
   ["pimples", "blackheads", "whiteheads", "cysts"],
   ["skin_rash", "pus_filled_pimples", "blackheads", "inflammation"],
   ["mild", "moderate", "severe"], ["teenagers", "young_adults"],
   ["consult_dermatologist", "gentle_skincare", "avoid_picking"], "low"⟩

def eczema_profile : ConditionProfile :=
  ⟨"Eczema",
   "A condition that makes skin red and itchy, commonly in children but can occur at any age",
   ["hands", "feet", "ankles", "wrists", "neck", "face"],
   ["red_patches", "dry_skin", "scaling", "thickened_skin"],
   ["itching", "skin_rash", "dry_skin", "inflammation"],
   ["mild", "moderate", "severe"], ["children", "adults"],
   ["consult_dermatologist", "moisturize_regularly", "avoid_triggers"], "low"⟩

def psoriasis_profile : ConditionProfile :=
  ⟨"Psoriasis",
   "An autoimmune condition that causes cells to build up rapidly on the skin surface",
   ["elbows", "knees", "scalp", "lower_back"],
   ["silvery_scales", "red_patches", "thick_plaques"],
   ["skin_rash", "skin_peeling", "silver_like_dusting", "joint_pain"],
   ["mild", "moderate", "severe"], ["adults"],
   ["consult_dermatologist", "specialized_care", "lifestyle_modifications"], "medium"⟩

def dermatitis_profile : ConditionProfile :=
  ⟨"Dermatitis",
   "General term for skin inflammation with various causes",
   ["hands", "face", "neck", "areas_of_contact"],
   ["redness", "swelling", "blisters", "scaling"],
   ["itching", "skin_rash", "burning_sensation", "swelling"],
   ["mild", "moderate", "severe"], ["all_ages"],
   ["avoid_triggers", "consult_healthcare_provider", "gentle_skincare"], "low"⟩

def fungal_profile : ConditionProfile :=
  ⟨"Fungal_Infection",
   "Skin infection caused by fungi, commonly affecting warm, moist areas",
   ["feet", "groin", "underarms", "between_toes"],
   ["ring_shaped_patches", "scaling", "redness", "itching"],
   ["itching", "skin_rash", "scaling", "burning_sensation"],
   ["mild", "moderate"], ["all_ages"],
   ["consult_healthcare_provider", "keep_area_dry", "proper_hygiene"], "low"⟩

def melanoma_profile : ConditionProfile :=
  ⟨"Melanoma",
   "A serious form of skin cancer that develops in melanocytes",
   ["any_skin_area", "commonly_sun_exposed_areas"],
   ["asymmetric_moles", "irregular_borders", "color_variation", "diameter_changes"],
   ["changing_mole", "new_growth", "bleeding", "itching"],
   ["high_risk"], ["adults", "elderly"],
   ["immediate_dermatologist_consultation", "urgent_medical_evaluation"], "high"⟩

def bcc_profile : ConditionProfile :=
  ⟨"Basal_Cell_Carcinoma",
   "The most common type of skin cancer, usually appears on sun-exposed areas",
   ["face", "neck", "arms", "hands"],
   ["pearly_bumps", "flat_lesions", "bleeding_sores"],
   ["new_growth", "non_healing_sore", "bleeding", "crusting"],
   ["moderate_risk"], ["adults", "elderly"],
   ["dermatologist_consultation", "medical_evaluation"], "medium"⟩

def benign_mole_profile : ConditionProfile :=
  ⟨"Benign_Mole",
   "Common, non-cancerous skin growths composed of melanocytes",
   ["any_skin_area"],
   ["uniform_color", "regular_borders", "stable_size"],
   ["usually_asymptomatic"],
   ["benign"], ["all_ages"],
   ["routine_monitoring", "annual_skin_checks"], "low"⟩

def seb_keratosis_profile : ConditionProfile :=
  ⟨"Seborrheic_Keratosis",
   "Common, non-cancerous skin growths that appear as waxy, scaly patches",
   ["chest", "back", "shoulders", "face"],
   ["waxy_appearance", "stuck_on_look", "brown_color"],
   ["usually_asymptomatic", "occasional_itching"],
   ["benign"], ["middle_aged", "elderly"],
   ["routine_monitoring", "dermatologist_consultation_if_changes"], "low"⟩

def rosacea_profile : ConditionProfile :=
  ⟨"Rosacea",
   "A chronic skin condition that causes redness and visible blood vessels in the face",
   ["central_face", "cheeks", "nose", "forehead"],
   ["persistent_redness", "visible_blood_vessels", "bumps"],
   ["facial_redness", "burning_sensation", "eye_irritation"],
   ["mild", "moderate", "severe"], ["middle_aged", "elderly"],
   ["dermatologist_consultation", "lifestyle_modifications", "gentle_skincare"], "low"⟩

/-- SkinConditionPredictor._load_skin_conditions, in dict order. -/
def skin_conditions : List ConditionProfile :=
  [dfu_profile, acne_profile, eczema_profile, psoriasis_profile, dermatitis_profile,
   fungal_profile, melanoma_profile, bcc_profile, benign_mole_profile,
   seb_keratosis_profile, rosacea_profile]

/-- The fixed keyword-group table of _calculate_confidence. -/
def keyword_groups : List (String × List String) := [
  ("diabetic_foot_ulcer", ["ulcer", "diabetic", "foot", "wound", "infection", "poor healing"]),
  ("acne", ["pimple", "blackhead", "whitehead", "acne", "zit"]),
  ("eczema", ["eczema", "atopic", "dry", "itchy", "red patch"]),
  ("psoriasis", ["psoriasis", "scale", "plaque", "silvery"]),
  ("melanoma", ["melanoma", "mole", "asymmetric", "irregular", "cancer"]),
  ("fungal", ["fungal", "ring", "athlete", "yeast"]),
  ("rosacea", ["rosacea", "facial redness", "blood vessel"])]

/-- Underscores to spaces, as characteristic.replace in the source. -/
def underscoresToSpaces (s : String) : String :=
  ⟨s.data.map fun c => if c = '_' then ' ' else c⟩

/-- SkinConditionPredictor._calculate_confidence. The description
argument is the already-lowercased text, as passed by the caller; an
empty location stands for the Python falsy values None and the empty
string. -/
def calculate_confidence (description : String) (condition_data : ConditionProfile)
    (location : String) : ℚ :=
  let visual_matches := (condition_data.visual_characteristics.filter
    (fun ch => pyIn (underscoresToSpaces ch) description)).length
  let c1 : ℚ := if condition_data.visual_characteristics ≠ [] then
      ((visual_matches : ℚ) / (condition_data.visual_characteristics.length : ℚ)) * (4 / 10)
    else 0
  let c2 : ℚ := if location ≠ "" then
      (let location_lower := pyLower location
       let location_matches := (condition_data.common_locations.filter
         (fun cl => pyIn (underscoresToSpaces cl) location_lower)).length
       if condition_data.common_locations ≠ [] then
         ((location_matches : ℚ) / (condition_data.common_locations.length : ℚ)) * (3 / 10)
       else 0)
    else 0
  let condition_lower := pyLower condition_data.description
  let c3 : ℚ := keyword_groups.foldl (fun acc kg =>
      if pyIn kg.1 condition_lower && kg.2.any (fun w => pyIn w description) then acc + 1 / 10
      else acc) 0
  min (c1 + c2 + c3) 1

/-- SkinConditionPredictor._determine_severity. -/
def determine_severity (condition_name : String) (description : String) : String :=
  if condition_name = "Melanoma" ∨ condition_name = "Diabetic_Foot_Ulcer" then "high"
  else if ["severe", "widespread", "bleeding", "painful", "infected", "large", "ulcer"].any
      (fun i => pyIn i description) then "high"
  else if ["moderate", "multiple", "spreading", "inflamed"].any
      (fun i => pyIn i description) then "medium"
  else "low"

/-- SkinConditionPredictor._filter_treatment_options. -/
def filter_treatment_options (treatment_options : List String) : List String :=
  treatment_options.map fun option =>
    if pyIn "medication" (pyLower option) || pyIn "prescription" (pyLower option) then
      "Consult healthcare provider for appropriate treatment options"
    else if pyIn "surgery" (pyLower option) then
      "Discuss treatment options with healthcare provider"
    else option

/-- One skin prediction dict. cnn_prediction models the key of the same
name, absent (false) until _combine_predictions sets it. -/
structure SkinPred where
  condition : String
  confidence : ℚ
  description : String
  severity : String
  urgency : String
  characteristics : List String
  treatment_options : List String
  cnn_prediction : Bool
deriving DecidableEq

/-- The body of the per-condition loop of analyze_image_description. -/
def skinCandidate (description_lower location : String) (c : ConditionProfile) :
    Option SkinPred :=
  let confidence := calculate_confidence description_lower c location
  if confidence > 3 / 10 then
    some ⟨c.name, pyRound10 (confidence * 100), c.description,
          determine_severity c.name description_lower, c.urgency,
          c.visual_characteristics, filter_treatment_options c.treatment_options, false⟩
  else none

/-- SkinConditionPredictor.analyze_image_description: score all profiles
against the lowercased description, keep those above the 0.3
threshold, sort by descending confidence, return the top 3. -/
def analyze_image_description (description location : String) : List SkinPred :=
  let description_lower := pyLower description
  (pySortDesc (fun p => p.confidence)
    (skin_conditions.filterMap (skinCandidate description_lower location))).take 3

/-- One ABCD criterion record: score, fixed description, findings. -/
structure AbcdCriterion where
  score : ℕ
  description : String
  findings : List String
deriving DecidableEq

/-- The result record of get_abcd_analysis. -/
structure AbcdAnalysis where
  asymmetry : AbcdCriterion
  border : AbcdCriterion
  color : AbcdCriterion
  diameter : AbcdCriterion
  total_score : ℕ
  risk_level : String
  recommendations : List String
deriving DecidableEq

/-- The shared shape of the asymmetry, border and diameter scans of
get_abcd_analysis: score 1 with a finding on the first indicator found
in the description, else score 0. -/
def scanCriterion (description_lower : String) (indicators : List String)
    (label msg : String) : AbcdCriterion :=
  match indicators.find? (fun i => pyIn i description_lower) with
  | some i => ⟨1, label, [msg ++ i]⟩
  | none => ⟨0, label, []⟩

def asymmetry_indicators : List String :=
  ["asymmetric", "irregular shape", "uneven", "lopsided"]

def border_indicators : List String :=
  ["irregular border", "jagged", "notched", "blurred edge"]

def color_indicators : List String :=
  ["multiple colors", "color variation", "different shades", "black", "blue", "red"]

def size_indicators : List String :=
  ["large", "bigger than", "growing", "increased size"]

/-- SkinConditionPredictor.get_abcd_analysis. -/
def get_abcd_analysis (description : String) : AbcdAnalysis :=
  let dl := pyLower description
  let asymmetry := scanCriterion dl asymmetry_indicators "Shape analysis"
    "Asymmetric features detected: "
  let border := scanCriterion dl border_indicators "Border regularity"
    "Irregular border detected: "
  let color_count := color_indicators.countP (fun i => pyIn i dl)
  let color : AbcdCriterion :=
    if color_count ≥ 2 then
      ⟨1, "Color variation", ["Multiple colors or significant color variation detected"]⟩
    else ⟨0, "Color variation", []⟩
  let diameter := scanCriterion dl size_indicators "Size assessment"
    "Size concern detected: "
  let total_score := asymmetry.score + border.score + color.score + diameter.score
  let risk_level := if total_score ≥ 3 then "high"
    else if total_score ≥ 2 then "medium" else "low"
  let recommendations := if total_score ≥ 3 then
      ["Immediate dermatological evaluation recommended",
       "Consider professional medical evaluation",
       "Do not delay medical consultation"]
    else if total_score ≥ 2 then
      ["Schedule dermatologist appointment within 1-2 weeks",
       "Monitor for any changes",
       "Take photos for comparison"]
    else
      ["Continue routine monitoring",
       "Annual dermatological check-up",
       "Self-examination monthly"]
  ⟨asymmetry, border, color, diameter, total_score, risk_level, recommendations⟩

/- =============================================================
src/services/app_streamlit.py — HealthcareAnalyzer
============================================================= -/

/-- The restricted-term list of _filter_medical_recommendations. -/
def restricted_terms : List String :=
  ["medication", "prescribe", "dosage", "mg", "pills", "tablets",
   "antibiotics", "steroids", "diagnosis", "definitely", "certainly"]

/-- Does the line contain a restricted term, case-insensitively. -/
def containsRestrictedTerm (rec : String) : Bool :=
  restricted_terms.any fun term => pyIn term (pyLower rec)

/-- The per-line rewrite applied to surviving recommendation lines. -/
def rewriteRecommendation (rec : String) : String :=
  pyReplace (pyReplace rec "Take" "Consider discussing with healthcare provider about")
    "Use" "Ask healthcare provider about"

/-- HealthcareAnalyzer._filter_medical_recommendations, as the
accumulator loop of the source. -/
def filter_medical_recommendations (recommendations : List String) : List String :=
  recommendations.foldl (fun filtered rec =>
    if containsRestrictedTerm rec then filtered
    else filtered ++ [rewriteRecommendation rec]) []

/-- HealthcareAnalyzer._combine_predictions, first loop body: Python
dict assignment combined[condition] = pred (overwrite keeps position,
new key appends). -/
def dictUpsert (combined : List SkinPred) (pred : SkinPred) : List SkinPred :=
  if combined.any (fun e => e.condition = pred.condition) then
    combined.map (fun e => if e.condition = pred.condition then pred else e)
  else combined ++ [pred]

/-- The fusion of a stored traditional entry e with a CNN prediction:
confidence reweighted 0.3 / 0.7 and the CNN flag set, all other fields
of e kept — the in-place dict update of the source. -/
def fuseEntry (e pred : SkinPred) : SkinPred :=
  ⟨e.condition, e.confidence * (3 / 10) + pred.confidence * (7 / 10), e.description,
   e.severity, e.urgency, e.characteristics, e.treatment_options, true⟩

/-- A CNN prediction with its cnn_prediction flag set. -/
def flagCnn (pred : SkinPred) : SkinPred :=
  ⟨pred.condition, pred.confidence, pred.description, pred.severity, pred.urgency,
   pred.characteristics, pred.treatment_options, true⟩

/-- HealthcareAnalyzer._combine_predictions, second loop body: fuse a
CNN prediction into the dict (weights 0.3 traditional / 0.7 CNN) or
append it flagged. -/
def cnnStep (combined : List SkinPred) (pred : SkinPred) : List SkinPred :=
  match combined.find? (fun e => e.condition = pred.condition) with
  | some e => combined.map (fun x =>
      if x.condition = pred.condition then fuseEntry e pred else x)
  | none => combined ++ [flagCnn pred]

/-- HealthcareAnalyzer._combine_predictions. -/
def combine_predictions (traditional_preds cnn_preds : List SkinPred) : List SkinPred :=
  let combined := traditional_preds.foldl dictUpsert []
  let combined2 := cnn_preds.foldl cnnStep combined
  (pySortDesc (fun p => p.confidence) combined2).take 5

/-- The emergency indicator list of get_emergency_assessment. -/
def emergency_symptoms : List String := [
  "chest_pain", "difficulty_breathing", "severe_headache", "loss_of_consciousness",
  "severe_bleeding", "signs_of_stroke", "severe_allergic_reaction",
  "high_fever_with_confusion", "severe_abdominal_pain"]

/-- The normalization used inside get_emergency_assessment: lowercase
and spaces to underscores (hyphens untouched). -/
def normalizeEmergency (s : String) : String :=
  ⟨(pyLower s).data.map fun c => if c = ' ' then '_' else c⟩

/-- HealthcareAnalyzer._get_emergency_recommendations. -/
def get_emergency_recommendations (risk_level : String) : List String :=
  if risk_level = "IMMEDIATE" then
    ["Seek emergency medical care immediately",
     "Do not drive yourself to hospital",
     "Have someone stay with you",
     "Prepare list of current health information"]
  else if risk_level = "URGENT" then
    ["Consider going to emergency room or urgent care",
     "Do not delay seeking medical care if symptoms worsen",
     "Bring identification and insurance information",
     "Have someone accompany you if possible"]
  else
    ["Schedule appointment with healthcare provider",
     "Monitor symptoms for changes",
     "Seek immediate care if symptoms worsen significantly",
     "Practice self-care measures"]

/-- The computational fields of the get_emergency_assessment result
(the prompt and timestamp fields call excluded collaborators). -/
structure EmergencyAssessment where
  risk_level : String
  urgency : String
  emergency_symptoms_found : List String
  recommendations : List String
deriving DecidableEq

/-- HealthcareAnalyzer.get_emergency_assessment. -/
def get_emergency_assessment (symptoms : List String) : EmergencyAssessment :=
  let emergency_found := symptoms.filter fun symptom =>
    emergency_symptoms.any fun e => pyIn e (normalizeEmergency symptom)
  let risk_level := if emergency_found ≠ [] then "IMMEDIATE"
    else if symptoms.length > 5 then "URGENT" else "NON-URGENT"
  let urgency := if emergency_found ≠ [] then "Seek emergency medical care immediately"
    else if symptoms.length > 5 then "Consider seeking medical care within hours"
    else "Monitor symptoms and consider medical consultation if they persist"
  ⟨risk_level, urgency, emergency_found, get_emergency_recommendations risk_level⟩

/- =============================================================
Helper lemmas about the ABCD criteria
============================================================= -/

theorem scanCriterion_score (dl : String) (ind : List String) (label msg : String) :
    (scanCriterion dl ind label msg).score =
      if (ind.find? (fun i => pyIn i dl)).isSome then 1 else 0 := by
  unfold scanCriterion
  cases h : ind.find? (fun i => pyIn i dl) <;> simp [h]

theorem scanCriterion_score_le (dl : String) (ind : List String) (label msg : String) :
    (scanCriterion dl ind label msg).score ≤ 1 := by
  rw [scanCriterion_score]
  split_ifs <;> omega

theorem scanCriterion_score_eq_one (dl : String) (ind : List String) (label msg : String) :
    ((scanCriterion dl ind label msg).score = 1 ↔ ∃ i ∈ ind, pyIn i dl = true) := by
  rw [scanCriterion_score]
  constructor
  · intro h
    by_cases hs : (ind.find? (fun i => pyIn i dl)).isSome
    · rw [List.find?_isSome] at hs
      exact hs
    · rw [if_neg hs] at h
      omega
  · intro hex
    rw [if_pos (List.find?_isSome.mpr hex)]

/-- C5: for every mole description, get_abcd_analysis returns a total
score equal to the sum of the four binary criterion scores (each in
0..1, hence total in 0..4), and the risk level is the monotonic
function of the total with the high boundary exactly at 3. -/
theorem C5_abcd_total_and_risk (description : String) :
    (get_abcd_analysis description).total_score =
      (get_abcd_analysis description).asymmetry.score +
      (get_abcd_analysis description).border.score +
      (get_abcd_analysis description).color.score +
      (get_abcd_analysis description).diameter.score ∧
    (get_abcd_analysis description).asymmetry.score ≤ 1 ∧
    (get_abcd_analysis description).border.score ≤ 1 ∧
    (get_abcd_analysis description).color.score ≤ 1 ∧
    (get_abcd_analysis description).diameter.score ≤ 1 ∧
    (get_abcd_analysis description).total_score ≤ 4 ∧
    ((get_abcd_analysis description).risk_level = "high" ↔
      3 ≤ (get_abcd_analysis description).total_score) ∧
    ((get_abcd_analysis description).risk_level = "medium" ↔
      (get_abcd_analysis description).total_score = 2) ∧
    ((get_abcd_analysis description).risk_level = "low" ↔
      (get_abcd_analysis description).total_score ≤ 1) := by
  cases hA : asymmetry_indicators.find? (fun i => pyIn i (pyLower description)) <;>
  cases hB : border_indicators.find? (fun i => pyIn i (pyLower description)) <;>
  cases hD : size_indicators.find? (fun i => pyIn i (pyLower description)) <;>
  by_cases hC : color_indicators.countP (fun i => pyIn i (pyLower description)) ≥ 2 <;>
  simp [get_abcd_analysis, scanCriterion, hA, hB, hD, hC]

/-- C6: the asymmetry, border and diameter criteria each score 1 exactly
when a single indicator phrase of their list occurs in the lowercased
description, while the color criterion scores 1 exactly when at least
two distinct color-variation indicators occur. -/
theorem C6_abcd_criteria (description : String) :
    ((get_abcd_analysis description).asymmetry.score = 1 ↔
      ∃ i ∈ asymmetry_indicators, pyIn i (pyLower description) = true) ∧
    ((get_abcd_analysis description).border.score = 1 ↔
      ∃ i ∈ border_indicators, pyIn i (pyLower description) = true) ∧
    ((get_abcd_analysis description).diameter.score = 1 ↔
      ∃ i ∈ size_indicators, pyIn i (pyLower description) = true) ∧
    ((get_abcd_analysis description).color.score = 1 ↔
      2 ≤ color_indicators.countP (fun i => pyIn i (pyLower description))) := by
  have ha : (get_abcd_analysis description).asymmetry =
      scanCriterion (pyLower description) asymmetry_indicators "Shape analysis"
        "Asymmetric features detected: " := by
    simp [get_abcd_analysis]
  have hb : (get_abcd_analysis description).border =
      scanCriterion (pyLower description) border_indicators "Border regularity"
        "Irregular border detected: " := by
    simp [get_abcd_analysis]
  have hd : (get_abcd_analysis description).diameter =
      scanCriterion (pyLower description) size_indicators "Size assessment"
        "Size concern detected: " := by
    simp [get_abcd_analysis]
  refine ⟨?_, ?_, ?_, ?_⟩
  · rw [ha, scanCriterion_score_eq_one]
  · rw [hb, scanCriterion_score_eq_one]
  · rw [hd, scanCriterion_score_eq_one]
  · by_cases hC : color_indicators.countP (fun i => pyIn i (pyLower description)) ≥ 2 <;>
      simp [get_abcd_analysis, hC]

/-- C10: get_emergency_assessment returns IMMEDIATE exactly when some
input symptom, lowercased with spaces as underscores, contains one of
the fixed emergency phrases as a substring; otherwise URGENT exactly
when more than 5 symptoms were supplied, and NON-URGENT otherwise. -/
theorem C10_emergency_characterization (symptoms : List String) :
    ((get_emergency_assessment symptoms).risk_level = "IMMEDIATE" ↔
      ∃ s ∈ symptoms, ∃ e ∈ emergency_symptoms, pyIn e (normalizeEmergency s) = true) ∧
    ((get_emergency_assessment symptoms).risk_level = "URGENT" ↔
      ((¬ ∃ s ∈ symptoms, ∃ e ∈ emergency_symptoms, pyIn e (normalizeEmergency s) = true) ∧
        5 < symptoms.length)) ∧
    ((get_emergency_assessment symptoms).risk_level = "NON-URGENT" ↔
      ((¬ ∃ s ∈ symptoms, ∃ e ∈ emergency_symptoms, pyIn e (normalizeEmergency s) = true) ∧
        symptoms.length ≤ 5)) := by
  have hiff : (symptoms.filter fun symptom =>
      emergency_symptoms.any fun e => pyIn e (normalizeEmergency symptom)) ≠ [] ↔
      ∃ s ∈ symptoms, ∃ e ∈ emergency_symptoms, pyIn e (normalizeEmergency s) = true := by
    constructor
    · intro hne
      obtain ⟨s, hs⟩ := List.exists_mem_of_ne_nil _ hne
      obtain ⟨hmem, hp⟩ := List.mem_filter.mp hs
      obtain ⟨e, he, hpe⟩ := List.any_eq_true.mp hp
      exact ⟨s, hmem, e, he, hpe⟩
    · rintro ⟨s, hs, e, he, hp⟩
      exact List.ne_nil_of_mem (List.mem_filter.mpr ⟨hs, List.any_eq_true.mpr ⟨e, he, hp⟩⟩)
  simp only [get_emergency_assessment]
  split_ifs with h1 h2
  · have hex := hiff.mp h1
    exact ⟨⟨fun _ => hex, fun _ => rfl⟩,
      ⟨fun h => absurd h (by decide), fun h => absurd hex h.1⟩,
      ⟨fun h => absurd h (by decide), fun h => absurd hex h.1⟩⟩
  · have hnex : ¬ ∃ s ∈ symptoms, ∃ e ∈ emergency_symptoms,
        pyIn e (normalizeEmergency s) = true := fun hex => h1 (hiff.mpr hex)
    exact ⟨⟨fun h => absurd h (by decide), fun hex => absurd hex hnex⟩,
      ⟨fun _ => ⟨hnex, h2⟩, fun _ => rfl⟩,
      ⟨fun h => absurd h (by decide), fun h => absurd h.2 (by omega)⟩⟩
  · have hnex : ¬ ∃ s ∈ symptoms, ∃ e ∈ emergency_symptoms,
        pyIn e (normalizeEmergency s) = true := fun hex => h1 (hiff.mpr hex)
    exact ⟨⟨fun h => absurd h (by decide), fun hex => absurd hex hnex⟩,
      ⟨fun h => absurd h (by decide), fun h => absurd h.2 (by omega)⟩,
      ⟨fun _ => ⟨hnex, by omega⟩, fun _ => rfl⟩⟩

/-- C1 (amended): predict_diseases returns the empty list on an empty
input, and exactly the single General Consultation placeholder
(probability 50, confidence 30, carrying the original input) on a
non-empty input none of whose symptoms matches the vocabulary. A
non-empty matched input can nonetheless yield an empty result, when
every candidate stays below the inclusion threshold. -/
theorem C1_empty_and_unmatched (p : Predictor) (symptoms : List String) (top_n : ℕ) :
    (symptoms = [] → predict_diseases p symptoms top_n = []) ∧
    (symptoms ≠ [] → find_matching_symptoms p.symptoms_list symptoms = [] →
      predict_diseases p symptoms top_n =
        [⟨"General Consultation Recommended", 50, symptoms, 30,
          some "Symptoms do not match common patterns. Professional medical consultation recommended."⟩]) := by
  constructor
  · intro h
    simp [predict_diseases, h]
  · intro h hm
    simp [predict_diseases, h, hm, get_fallback_predictions]

unseal Rat.mul Rat.inv Rat.add Rat.sub in
theorem C1_witness :
    predict_diseases predictor_no_data [] 5 = [] ∧
    predict_diseases predictor_no_data ["qq"] 5 =
      [⟨"General Consultation Recommended", 50, ["qq"], 30,
        some "Symptoms do not match common patterns. Professional medical consultation recommended."⟩] :=
  ⟨(C1_empty_and_unmatched predictor_no_data [] 5).1 rfl,
   (C1_empty_and_unmatched predictor_no_data ["qq"] 5).2 (by decide) (by decide)⟩

unseal Rat.mul Rat.inv Rat.add Rat.sub in
theorem C1_counterexample :
    ["chills"] ≠ ([] : List String) ∧
    find_matching_symptoms predictor_no_data.symptoms_list ["chills"] = ["chills"] ∧
    predict_diseases predictor_no_data ["chills"] 5 = [] := by
  refine ⟨by decide, by decide, by decide⟩

/-- A canonical symptom token for claim C8: no character is changed by
lowercasing, and there is no whitespace, space or hyphen to strip or
replace. -/
def isNormalizedToken (s : String) : Bool :=
  s.data.all fun c => Char.toLower c = c && !c.isWhitespace && c ≠ ' ' && c ≠ '-'

theorem dropWhile_of_forall_not {l : List Char} (p : Char → Bool)
    (h : ∀ c ∈ l, ¬ p c = true) : l.dropWhile p = l := by
  cases l with
  | nil => rfl
  | cons c t =>
    rw [List.dropWhile_cons, if_neg (h c (List.mem_cons_self c t))]

/-- C8 (amended): normalize_symptom is the identity on canonical tokens
that are not keys of the synonym table. Vocabulary membership alone
does not suffice: a canonical token that is also a synonym key is
rewritten (see the counterexample). -/
theorem C8_normalize_identity (s : String) (h1 : isNormalizedToken s = true)
    (h2 : symptom_mappings.find? (fun m => m.1 = s) = none) :
    normalize_symptom s = s := by
  have hchars : ∀ c ∈ s.data,
      Char.toLower c = c ∧ ¬ c.isWhitespace = true ∧ c ≠ ' ' ∧ c ≠ '-' := by
    intro c hc
    have := (List.all_eq_true.mp h1) c hc
    simp only [Bool.and_eq_true, Bool.not_eq_true', decide_eq_true_eq] at this
    refine ⟨this.1.1.1, by simp [this.1.1.2], this.1.2, this.2⟩
  have hlow : pyLower s = s := by
    show (⟨s.data.map Char.toLower⟩ : String) = s
    rw [(List.map_congr_left fun c hc => (hchars c hc).1 : s.data.map Char.toLower = s.data.map id),
      List.map_id]
  have hstrip : pyStrip s = s := by
    show (⟨((s.data.dropWhile Char.isWhitespace).reverse.dropWhile Char.isWhitespace).reverse⟩
      : String) = s
    rw [dropWhile_of_forall_not Char.isWhitespace (fun c hc => (hchars c hc).2.1)]
    rw [dropWhile_of_forall_not Char.isWhitespace
      (fun c hc => (hchars c (List.mem_reverse.mp hc)).2.1)]
    rw [List.reverse_reverse]
  have hsp : s.data.map (fun c => if c = ' ' then '_' else c) = s.data := by
    rw [(List.map_congr_left fun c hc => by
        rw [if_neg (hchars c hc).2.2.1]; rfl : s.data.map (fun c => if c = ' ' then '_' else c)
          = s.data.map id), List.map_id]
  have hhy : s.data.map (fun c => if c = '-' then '_' else c) = s.data := by
    rw [(List.map_congr_left fun c hc => by
        rw [if_neg (hchars c hc).2.2.2]; rfl : s.data.map (fun c => if c = '-' then '_' else c)
          = s.data.map id), List.map_id]
  unfold normalize_symptom
  rw [hlow, hstrip]
  show (match symptom_mappings.find? (fun m => m.1 = (⟨(⟨s.data.map fun c =>
    if c = ' ' then '_' else c⟩ : String).data.map fun c => if c = '-' then '_' else c⟩ : String))
    with
    | some m => m.2
    | none => (⟨(⟨s.data.map fun c => if c = ' ' then '_' else c⟩ : String).data.map fun c =>
        if c = '-' then '_' else c⟩ : String)) = s
  simp only [hsp, hhy]
  rw [h2]

theorem C8_witness :
    isNormalizedToken "fever" = true ∧
    symptom_mappings.find? (fun m => m.1 = "fever") = none ∧
    normalize_symptom "fever" = "fever" :=
  ⟨by decide, by decide, C8_normalize_identity "fever" (by decide) (by decide)⟩

theorem C8_counterexample :
    isNormalizedToken "shortness_of_breath" = true ∧
    "shortness_of_breath" ∈ fallback_symptoms ∧
    "shortness_of_breath" ∈ predictor_no_data.symptoms_list ∧
    normalize_symptom "shortness_of_breath" = "breathlessness" ∧
    "shortness_of_breath" ≠ "breathlessness" := by
  refine ⟨by decide, by decide, by decide, by decide, by decide⟩

/-- C7 (amended): the recommendation filter drops exactly the lines
containing a disallowed term (case-insensitive substring match) and
emits every surviving line with Take rewritten to the discuss-with-
provider phrase and Use rewritten to the ask-provider phrase. The
rewriting is not re-checked, so it can reintroduce a disallowed term
(see the counterexample). -/
theorem C7_filter_characterization (recommendations : List String) :
    filter_medical_recommendations recommendations =
      (recommendations.filter fun rec => !containsRestrictedTerm rec).map
        rewriteRecommendation := by
  suffices h : ∀ (l acc : List String),
      l.foldl (fun filtered rec => if containsRestrictedTerm rec then filtered
        else filtered ++ [rewriteRecommendation rec]) acc =
      acc ++ (l.filter fun rec => !containsRestrictedTerm rec).map rewriteRecommendation by
    simpa using h recommendations []
  intro l
  induction l with
  | nil => intro acc; simp
  | cons x xs ih =>
    intro acc
    cases hx : containsRestrictedTerm x <;>
      simp [List.foldl_cons, hx, ih, List.filter_cons]

theorem C7_counterexample :
    containsRestrictedTerm "Takeablets" = false ∧
    filter_medical_recommendations ["Takeablets"] =
      ["Consider discussing with healthcare provider aboutablets"] ∧
    containsRestrictedTerm "Consider discussing with healthcare provider aboutablets" = true ∧
    pyIn "tablets" (pyLower "Consider discussing with healthcare provider aboutablets") = true := by
  refine ⟨by decide, by decide, by decide, by decide⟩

/- =============================================================
Bounds lemmas for the two probability formulas
============================================================= -/

theorem dataProbability_bounds (mc ti td : ℕ) :
    0 ≤ dataProbability mc ti td ∧ dataProbability mc ti td ≤ 95 := by
  simp only [dataProbability]
  set P : ℚ := if ti > 0 then (mc : ℚ) / (ti : ℚ) else 0 with hPdef
  set R : ℚ := if td > 0 then (mc : ℚ) / (td : ℚ) else 0 with hRdef
  have hP : 0 ≤ P := by rw [hPdef]; split_ifs <;> positivity
  have hR : 0 ≤ R := by rw [hRdef]; split_ifs <;> positivity
  have hf : 0 ≤ (if P + R > 0 then 2 * P * R / (P + R) else 0) := by
    split_ifs with hpr
    · exact div_nonneg (by positivity) (le_of_lt hpr)
    · exact le_refl 0
  exact ⟨le_min (by positivity) (by norm_num), min_le_right _ _⟩

theorem ruleProbability_bounds {base : ℚ} (hb : 0 ≤ base) (matched total : ℕ) :
    0 ≤ ruleProbability base matched total ∧ ruleProbability base matched total ≤ 90 := by
  unfold ruleProbability
  exact ⟨le_min (by positivity) (by norm_num), min_le_right _ _⟩

theorem rowCandidate_bounds {symptoms : List String} {row : DataRow} {pred : Prediction}
    (h : rowCandidate symptoms row = some pred) :
    0 ≤ pred.probability ∧ pred.probability ≤ 95 := by
  simp only [rowCandidate] at h
  split_ifs at h with h1 h2
  have hp := Option.some.inj h
  subst hp
  obtain ⟨hb1, hb2⟩ := dataProbability_bounds
    (((pySet symptoms).filter
      (fun s => s ∈ row.cells.filter (fun c => c ≠ "0"))).length)
    symptoms.length ((row.cells.filter (fun c => c ≠ "0")).length)
  refine ⟨pyRound10_nonneg hb1, ?_⟩
  have h95 : dataProbability
      (((pySet symptoms).filter
        (fun s => s ∈ row.cells.filter (fun c => c ≠ "0"))).length)
      symptoms.length ((row.cells.filter (fun c => c ≠ "0")).length) ≤ ((95 : ℤ) : ℚ) := by
    exact_mod_cast hb2
  have := pyRound10_le_int h95
  exact_mod_cast this

theorem ruleCandidate_bounds {symptoms : List String} {rule : DiseaseRule} {pred : Prediction}
    (hr : rule ∈ disease_rules) (h : ruleCandidate symptoms rule = some pred) :
    0 ≤ pred.probability ∧ pred.probability ≤ 90 := by
  have hb : 0 ≤ rule.base_probability := by
    fin_cases hr <;> norm_num
  simp only [ruleCandidate] at h
  split_ifs at h with h1 h2
  have hp := Option.some.inj h
  subst hp
  obtain ⟨hb1, hb2⟩ := ruleProbability_bounds hb
    (((pySet symptoms).filter (fun s => s ∈ rule.symptoms)).length) rule.symptoms.length
  refine ⟨pyRound10_nonneg hb1, ?_⟩
  have h90 : ruleProbability rule.base_probability
      (((pySet symptoms).filter (fun s => s ∈ rule.symptoms)).length)
      rule.symptoms.length ≤ ((90 : ℤ) : ℚ) := by
    exact_mod_cast hb2
  have := pyRound10_le_int h90
  exact_mod_cast this

/-- C2 (amended): every prediction returned by predict_diseases has
probability in [0, 95], in [0, 90] under the rule strategy, and the
returned list is sorted in non-increasing (not necessarily strictly
decreasing) order of probability. -/
theorem C2_bounds_and_sorted (p : Predictor) (symptoms : List String) (top_n : ℕ) :
    (∀ pred ∈ predict_diseases p symptoms top_n,
      0 ≤ pred.probability ∧ pred.probability ≤ 95 ∧
        (p.disease_data = none → pred.probability ≤ 90)) ∧
    (predict_diseases p symptoms top_n).Pairwise
      (fun a b => b.probability ≤ a.probability) := by
  by_cases hs : symptoms = []
  · simp [predict_diseases, hs]
  · by_cases hm : find_matching_symptoms p.symptoms_list symptoms = []
    · constructor
      · intro pred hpred
        simp [predict_diseases, hs, hm, get_fallback_predictions] at hpred
        subst hpred
        exact ⟨by norm_num, by norm_num, fun _ => by norm_num⟩
      · simp [predict_diseases, hs, hm, get_fallback_predictions]
    · cases hd : p.disease_data with
      | none =>
        have hres : predict_diseases p symptoms top_n =
            predict_with_rules (find_matching_symptoms p.symptoms_list symptoms) top_n := by
          simp [predict_diseases, hs, hm, hd]
        rw [hres]
        constructor
        · intro pred hpred
          unfold predict_with_rules at hpred
          have hmem := List.take_subset _ _ hpred
          rw [mem_pySortDesc] at hmem
          obtain ⟨rule, hrule, hcand⟩ := List.mem_filterMap.mp hmem
          obtain ⟨hb1, hb2⟩ := ruleCandidate_bounds hrule hcand
          exact ⟨hb1, le_trans hb2 (by norm_num), fun _ => hb2⟩
        · exact List.Pairwise.sublist (List.take_sublist _ _) (pySortDesc_sorted _ _)
      | some rows =>
        have hres : predict_diseases p symptoms top_n =
            predict_with_data rows (find_matching_symptoms p.symptoms_list symptoms) top_n := by
          simp [predict_diseases, hs, hm, hd]
        rw [hres]
        constructor
        · intro pred hpred
          unfold predict_with_data at hpred
          have hmem := List.take_subset _ _ hpred
          rw [mem_pySortDesc] at hmem
          obtain ⟨row, hrow, hcand⟩ := List.mem_filterMap.mp hmem
          obtain ⟨hb1, hb2⟩ := rowCandidate_bounds hcand
          exact ⟨hb1, hb2, fun hnone => Option.noConfusion hnone⟩
        · exact List.Pairwise.sublist (List.take_sublist _ _) (pySortDesc_sorted _ _)

/-- The Migraine entry that predict_diseases produces for the symptoms
nausea and vomiting under the rule strategy. -/
def migraine_pred : Prediction := ⟨"Migraine", 32, ["nausea", "vomiting"], 50, none⟩

unseal Rat.mul Rat.inv Rat.add Rat.sub in
theorem C2_witness :
    migraine_pred ∈ predict_diseases predictor_no_data ["nausea", "vomiting"] 5 ∧
    0 ≤ migraine_pred.probability ∧ migraine_pred.probability ≤ 95 ∧
    migraine_pred.probability ≤ 90 := by
  have hmem : migraine_pred ∈ predict_diseases predictor_no_data ["nausea", "vomiting"] 5 := by
    decide
  have h := (C2_bounds_and_sorted predictor_no_data ["nausea", "vomiting"] 5).1
    migraine_pred hmem
  exact ⟨hmem, h.1, h.2.1, h.2.2 rfl⟩

unseal Rat.mul Rat.inv Rat.add Rat.sub in
theorem C2_counterexample :
    (predict_diseases predictor_no_data ["nausea", "vomiting", "headache", "dizziness"] 5).map
        (fun p => p.probability) = [48, 30, 30] ∧
    ¬ (predict_diseases predictor_no_data
        ["nausea", "vomiting", "headache", "dizziness"] 5).Pairwise
        (fun a b => b.probability < a.probability) := by
  refine ⟨by decide, by decide⟩

/-- C4 (amended): on a non-empty prediction list the urgency is Low
unless the top probability exceeds 70 (Medium) or 85 (High), and is
High regardless of probability exactly when one of the code high-risk
phrases — chest_pain, difficulty_breathing (not breathlessness),
severe_headache, high_fever, severe_abdominal_pain — occurs as a
substring of the Python str() rendering of the matched-symptom list. -/
theorem C4_urgency_characterization (top : Prediction) (rest : List Prediction) :
    ((get_recommendations (top :: rest)).urgency = "High" ↔
      (high_risk_symptoms.any
          (fun s => pyIn s (pyStrList top.matching_symptoms)) = true ∨
        85 < top.probability)) ∧
    ((get_recommendations (top :: rest)).urgency = "Medium" ↔
      (high_risk_symptoms.any
          (fun s => pyIn s (pyStrList top.matching_symptoms)) = false ∧
        70 < top.probability ∧ top.probability ≤ 85)) ∧
    ((get_recommendations (top :: rest)).urgency = "Low" ↔
      (high_risk_symptoms.any
          (fun s => pyIn s (pyStrList top.matching_symptoms)) = false ∧
        top.probability ≤ 70)) := by
  have hu : (get_recommendations (top :: rest)).urgency =
      if high_risk_symptoms.any (fun s => pyIn s (pyStrList top.matching_symptoms))
      then "High"
      else if top.probability > 85 then "High"
      else if top.probability > 70 then "Medium" else "Low" := by
    simp only [get_recommendations]
  rw [hu]
  cases hhit : high_risk_symptoms.any (fun s => pyIn s (pyStrList top.matching_symptoms)) with
  | true =>
    rw [if_pos rfl]
    exact ⟨⟨fun _ => Or.inl rfl, fun _ => rfl⟩,
      ⟨fun h => by simp at h, fun h => by simp at h⟩,
      ⟨fun h => by simp at h, fun h => by simp at h⟩⟩
  | false =>
    rw [if_neg (by simp)]
    split_ifs with h85 h70
    · exact ⟨⟨fun _ => Or.inr h85, fun _ => rfl⟩,
        ⟨fun h => by simp at h, fun h => (by linarith [h.2.2, h85] : False).elim⟩,
        ⟨fun h => by simp at h, fun h => (by linarith [h.2, h85] : False).elim⟩⟩
    · exact ⟨⟨fun h => by simp at h,
          fun h => h.elim (fun hh => by simp at hh) (fun hh => absurd hh h85)⟩,
        ⟨fun _ => ⟨rfl, h70, not_lt.mp h85⟩, fun _ => rfl⟩,
        ⟨fun h => by simp at h, fun h => absurd h70 (not_lt.mpr h.2)⟩⟩
    · exact ⟨⟨fun h => by simp at h,
          fun h => h.elim (fun hh => by simp at hh) (fun hh => absurd hh h85)⟩,
        ⟨fun h => by simp at h, fun h => absurd h.2.1 h70⟩,
        ⟨fun _ => ⟨rfl, not_lt.mp h70⟩, fun _ => rfl⟩⟩

/-- A prediction whose only matched token is breathlessness, the
canonical form that normalize_symptom produces for shortness of
breath and difficulty breathing. -/
def breathless_pred : Prediction := ⟨"Hypertension", 50, ["breathlessness"], 25, none⟩

theorem C4_counterexample :
    "breathlessness" ∈ breathless_pred.matching_symptoms ∧
    "breathlessness" ∈ ["chest_pain", "breathlessness", "severe_headache", "high_fever",
      "severe_abdominal_pain"] ∧
    breathless_pred.probability ≤ 70 ∧
    (get_recommendations [breathless_pred]).urgency = "Low" := by
  refine ⟨by decide, by decide, by norm_num [breathless_pred], by decide⟩

/-- The image-description scenario of the specification. -/
def scenario_description : String := "red, itchy patches on hands with dry, scaling skin"

set_option maxRecDepth 4000 in
unseal Rat.mul Rat.inv Rat.add Rat.sub in
theorem C9_counterexample :
    analyze_image_description scenario_description "hands" = [] := by
  decide

set_option maxRecDepth 4000 in
unseal Rat.mul Rat.inv Rat.add Rat.sub in
theorem C9_scenario_below_threshold :
    calculate_confidence (pyLower scenario_description) eczema_profile "hands" = 3 / 20 ∧
    ¬ (3 / 20 : ℚ) > 3 / 10 ∧
    analyze_image_description scenario_description "hands" = [] := by
  refine ⟨by decide, by norm_num, by decide⟩

/- =============================================================
Characterization of _combine_predictions (claim C3)
============================================================= -/

/-- The per-condition fusion that _combine_predictions performs on a
traditional entry: reweighted with the matching CNN entry when one
exists, kept unchanged otherwise. -/
def fuseTrad (cnn_preds : List SkinPred) (t : SkinPred) : SkinPred :=
  match cnn_preds.find? (fun c => c.condition = t.condition) with
  | some c => fuseEntry t c
  | none => t

/-- The CNN-only entries that _combine_predictions appends: CNN
predictions whose condition matches no traditional entry, flagged. -/
def cnnNews (traditional_preds processed : List SkinPred) : List SkinPred :=
  (processed.filter fun c => traditional_preds.all fun t => t.condition ≠ c.condition).map
    flagCnn

theorem fuseEntry_condition (e p : SkinPred) : (fuseEntry e p).condition = e.condition := rfl

theorem flagCnn_condition (p : SkinPred) : (flagCnn p).condition = p.condition := rfl

theorem fuseTrad_condition (l : List SkinPred) (t : SkinPred) :
    (fuseTrad l t).condition = t.condition := by
  unfold fuseTrad
  cases h : l.find? (fun c => c.condition = t.condition) <;> rfl

theorem fuseTrad_of_not_mem {done : List SkinPred} {t : SkinPred}
    (hd : ∀ d ∈ done, d.condition ≠ t.condition) : fuseTrad done t = t := by
  unfold fuseTrad
  rw [List.find?_eq_none.mpr (fun d hdm => by simpa using hd d hdm)]

theorem fuseTrad_append_single_ne {done : List SkinPred} {c t : SkinPred}
    (h : c.condition ≠ t.condition) : fuseTrad (done ++ [c]) t = fuseTrad done t := by
  unfold fuseTrad
  rw [List.find?_append]
  cases hf : done.find? (fun x => x.condition = t.condition) with
  | some d => rfl
  | none =>
    have : [c].find? (fun x => x.condition = t.condition) = none := by
      simp [List.find?, h]
    rw [this, Option.none_or]

theorem fuseTrad_append_single_eq {done : List SkinPred} {c t : SkinPred}
    (hd : ∀ d ∈ done, d.condition ≠ t.condition) (h : c.condition = t.condition) :
    fuseTrad (done ++ [c]) t = fuseEntry t c := by
  unfold fuseTrad
  rw [List.find?_append, List.find?_eq_none.mpr (fun d hdm => by simpa using hd d hdm)]
  have : [c].find? (fun x => x.condition = t.condition) = some c := by
    simp [List.find?, h]
  rw [Option.none_or, this]

theorem mem_cnnNews {trad done : List SkinPred} {n : SkinPred}
    (hn : n ∈ cnnNews trad done) :
    ∃ d ∈ done, n = flagCnn d ∧ ∀ t ∈ trad, t.condition ≠ d.condition := by
  unfold cnnNews at hn
  obtain ⟨d, hd, rfl⟩ := List.mem_map.mp hn
  obtain ⟨hdm, hall⟩ := List.mem_filter.mp hd
  refine ⟨d, hdm, rfl, ?_⟩
  intro t ht
  have := List.all_eq_true.mp hall t ht
  simpa using this

theorem cnnNews_append_single_in {trad done : List SkinPred} {c : SkinPred}
    (h : ∃ t ∈ trad, t.condition = c.condition) :
    cnnNews trad (done ++ [c]) = cnnNews trad done := by
  unfold cnnNews
  rw [List.filter_append, List.map_append]
  obtain ⟨t, ht, heq⟩ := h
  have hb : (trad.all fun t => t.condition ≠ c.condition) = false := by
    rw [List.all_eq_false]
    exact ⟨t, ht, by simpa using heq⟩
  have : [c].filter (fun x => trad.all fun t => t.condition ≠ x.condition) = [] := by
    rw [List.filter_cons, hb]
    simp
  rw [this, List.map_nil, List.append_nil]

theorem cnnNews_append_single_notin {trad done : List SkinPred} {c : SkinPred}
    (h : ∀ t ∈ trad, t.condition ≠ c.condition) :
    cnnNews trad (done ++ [c]) = cnnNews trad done ++ [flagCnn c] := by
  unfold cnnNews
  rw [List.filter_append, List.map_append]
  have hb : (trad.all fun t => t.condition ≠ c.condition) = true :=
    List.all_eq_true.mpr (fun t ht => by simpa using h t ht)
  have : [c].filter (fun x => trad.all fun t => t.condition ≠ x.condition) = [c] := by
    rw [List.filter_cons, hb]
    simp
  rw [this, List.map_singleton]

theorem foldl_dictUpsert_disjoint :
    ∀ (l acc : List SkinPred),
      (∀ x ∈ l, ∀ y ∈ acc, y.condition ≠ x.condition) →
      (l.map fun z => z.condition).Nodup →
      l.foldl dictUpsert acc = acc ++ l := by
  intro l
  induction l with
  | nil => intro acc _ _; simp
  | cons x xs ih =>
    intro acc hdisj hnodup
    have hany : acc.any (fun e => e.condition = x.condition) = false := by
      rw [List.any_eq_false]
      intro y hy
      simpa using hdisj x (List.mem_cons_self x xs) y hy
    have hstep : dictUpsert acc x = acc ++ [x] := by
      unfold dictUpsert
      rw [hany]
      simp
    have hxs : (xs.map fun z => z.condition).Nodup := (List.nodup_cons.mp hnodup).2
    have hxnot : x.condition ∉ (xs.map fun z => z.condition) := (List.nodup_cons.mp hnodup).1
    have hdisj2 : ∀ z ∈ xs, ∀ y ∈ acc ++ [x], y.condition ≠ z.condition := by
      intro z hz y hy
      rcases List.mem_append.mp hy with hya | hyx
      · exact hdisj z (List.mem_cons_of_mem x hz) y hya
      · rw [List.mem_singleton.mp hyx]
        intro he
        exact hxnot (he ▸ List.mem_map_of_mem (fun z => z.condition) hz)
    rw [List.foldl_cons, hstep, ih (acc ++ [x]) hdisj2 hxs]
    simp

theorem cnnStep_eq_some {combined : List SkinPred} {c e : SkinPred}
    (h : combined.find? (fun x => x.condition = c.condition) = some e) :
    cnnStep combined c =
      combined.map (fun x => if x.condition = c.condition then fuseEntry e c else x) := by
  unfold cnnStep
  rw [h]

theorem cnnStep_eq_none {combined : List SkinPred} {c : SkinPred}
    (h : combined.find? (fun x => x.condition = c.condition) = none) :
    cnnStep combined c = combined ++ [flagCnn c] := by
  unfold cnnStep
  rw [h]

theorem cnnStep_fusion_step {trad done : List SkinPred} {c : SkinPred}
    (htrad : (trad.map fun z => z.condition).Nodup)
    (hcdone : ∀ d ∈ done, d.condition ≠ c.condition) :
    cnnStep (trad.map (fuseTrad done) ++ cnnNews trad done) c =
      trad.map (fuseTrad (done ++ [c])) ++ cnnNews trad (done ++ [c]) := by
  by_cases hex : ∃ t ∈ trad, t.condition = c.condition
  · -- the CNN entry matches a traditional condition: in-place fusion
    have hsome : (trad.find? fun t => t.condition = c.condition).isSome := by
      rw [List.find?_isSome]
      obtain ⟨t, ht, heq⟩ := hex
      exact ⟨t, ht, by simpa using heq⟩
    obtain ⟨t0, hf⟩ := Option.isSome_iff_exists.mp hsome
    have ht0mem : t0 ∈ trad := List.mem_of_find?_eq_some hf
    have ht0eq : t0.condition = c.condition := by simpa using List.find?_some hf
    have ht0done : fuseTrad done t0 = t0 :=
      fuseTrad_of_not_mem (fun d hd => ht0eq ▸ hcdone d hd)
    have hmapfind : ((trad.map (fuseTrad done)).find?
        fun e => e.condition = c.condition) = some t0 := by
      rw [List.find?_map]
      have hpred : ((fun e => decide (e.condition = c.condition)) ∘ (fuseTrad done)) =
          fun t => decide (t.condition = c.condition) := by
        funext t
        simp [Function.comp, fuseTrad_condition]
      rw [hpred, hf]
      simp [ht0done]
    have hdictfind : ((trad.map (fuseTrad done) ++ cnnNews trad done).find?
        fun e => e.condition = c.condition) = some t0 := by
      rw [List.find?_append, hmapfind]
      rfl
    rw [cnnStep_eq_some hdictfind, List.map_append]
    congr 1
    · -- updated traditional part
      rw [List.map_map]
      refine List.map_congr_left ?_
      intro t htm
      by_cases hteq : t.condition = c.condition
      · have ht0' : t = t0 := List.inj_on_of_nodup_map htrad htm ht0mem
          (by rw [hteq, ht0eq])
        subst ht0'
        have hfd : fuseTrad done t = t := fuseTrad_of_not_mem
          (fun d hd => hteq ▸ hcdone d hd)
        simp only [Function.comp_apply, hfd]
        rw [if_pos hteq, fuseTrad_append_single_eq (fun d hd => hteq ▸ hcdone d hd) hteq.symm]
      · simp only [Function.comp_apply]
        rw [if_neg (by rw [fuseTrad_condition]; exact hteq),
          fuseTrad_append_single_ne (fun he => hteq he.symm)]
    · -- unchanged CNN-only part
      rw [cnnNews_append_single_in hex]
      refine (List.map_congr_left ?_).trans (List.map_id _)
      intro n hn
      obtain ⟨d, hd, rfl, -⟩ := mem_cnnNews hn
      rw [if_neg]
      · rfl
      · rw [flagCnn_condition]
        exact hcdone d hd
  · -- a brand-new condition: appended flagged
    push_neg at hex
    have hfindl : ((trad.map (fuseTrad done)).find?
        fun e => e.condition = c.condition) = none := by
      rw [List.find?_eq_none]
      intro e he
      obtain ⟨t, ht, rfl⟩ := List.mem_map.mp he
      simpa [fuseTrad_condition] using hex t ht
    have hfindr : ((cnnNews trad done).find? fun e => e.condition = c.condition) = none := by
      rw [List.find?_eq_none]
      intro n hn
      obtain ⟨d, hd, rfl, -⟩ := mem_cnnNews hn
      simpa [flagCnn_condition] using hcdone d hd
    have hdictfind : ((trad.map (fuseTrad done) ++ cnnNews trad done).find?
        fun e => e.condition = c.condition) = none := by
      rw [List.find?_append, hfindl, hfindr]
      rfl
    rw [cnnStep_eq_none hdictfind, cnnNews_append_single_notin hex]
    have hmap : trad.map (fuseTrad (done ++ [c])) = trad.map (fuseTrad done) := by
      refine List.map_congr_left ?_
      intro t htm
      exact fuseTrad_append_single_ne (fun he => hex t htm he.symm)
    rw [hmap, List.append_assoc]

theorem foldl_cnnStep_fusion :
    ∀ (cnn done trad : List SkinPred),
      (trad.map fun z => z.condition).Nodup →
      ((done ++ cnn).map fun z => z.condition).Nodup →
      cnn.foldl cnnStep (trad.map (fuseTrad done) ++ cnnNews trad done) =
        trad.map (fuseTrad (done ++ cnn)) ++ cnnNews trad (done ++ cnn) := by
  intro cnn
  induction cnn with
  | nil =>
    intro done trad _ _
    simp
  | cons c cs ih =>
    intro done trad htrad hnodup
    have hcdone : ∀ d ∈ done, d.condition ≠ c.condition := by
      intro d hd he
      rw [List.map_append] at hnodup
      have hdisj := (List.nodup_append.mp hnodup).2.2
      exact hdisj (List.mem_map_of_mem _ hd)
        (he ▸ List.mem_map_of_mem (fun z => z.condition) (List.mem_cons_self c cs))
    have hnodup2 : (((done ++ [c]) ++ cs).map fun z => z.condition).Nodup := by
      rw [List.append_assoc, List.singleton_append]
      exact hnodup
    rw [List.foldl_cons, cnnStep_fusion_step htrad hcdone, ih (done ++ [c]) trad htrad hnodup2,
      List.append_assoc, List.singleton_append]

/-- C3 (amended): _combine_predictions keeps each traditional entry
unchanged when no CNN entry shares its condition, replaces its
confidence with traditional x 0.3 + cnn x 0.7 (no rounding) and flags
it when one does, appends the CNN-only entries flagged, and returns
the pool re-ranked by descending confidence, truncated to the top 5.
A condition present on only one side keeps that side score: the
missing side does not default to 0, and no rounding is applied. -/
theorem C3_fusion_characterization (traditional_preds cnn_preds : List SkinPred)
    (ht : (traditional_preds.map fun z => z.condition).Nodup)
    (hc : (cnn_preds.map fun z => z.condition).Nodup) :
    combine_predictions traditional_preds cnn_preds =
      (pySortDesc (fun z => z.confidence)
        (traditional_preds.map (fuseTrad cnn_preds) ++
          cnnNews traditional_preds cnn_preds)).take 5 := by
  simp only [combine_predictions]
  rw [foldl_dictUpsert_disjoint traditional_preds [] (by simp) ht, List.nil_append]
  have hmap0 : traditional_preds.map (fuseTrad []) = traditional_preds := by
    refine (List.map_congr_left ?_).trans (List.map_id _)
    intro t _
    exact fuseTrad_of_not_mem (by simp)
  have hnews0 : cnnNews traditional_preds [] = [] := by
    simp [cnnNews]
  have h0 : traditional_preds =
      traditional_preds.map (fuseTrad []) ++ cnnNews traditional_preds [] := by
    rw [hmap0, hnews0, List.append_nil]
  conv_lhs => rw [h0]
  rw [foldl_cnnStep_fusion cnn_preds [] traditional_preds ht (by simpa using hc),
    List.nil_append]

/-- A minimal skin prediction carrying only a condition label and a
confidence, as used to exercise _combine_predictions. -/
def bareSkinPred (condition : String) (confidence : ℚ) : SkinPred :=
  ⟨condition, confidence, "", "", "", [], [], false⟩

unseal Rat.mul Rat.inv Rat.add Rat.sub in
theorem C3_witness :
    combine_predictions [bareSkinPred "Eczema" 80] [bareSkinPred "Acne" 70] =
      (pySortDesc (fun z => z.confidence)
        (([bareSkinPred "Eczema" 80].map (fuseTrad [bareSkinPred "Acne" 70])) ++
          cnnNews [bareSkinPred "Eczema" 80] [bareSkinPred "Acne" 70])).take 5 :=
  C3_fusion_characterization [bareSkinPred "Eczema" 80] [bareSkinPred "Acne" 70]
    (by decide) (by decide)

unseal Rat.mul Rat.inv Rat.add Rat.sub in
theorem C3_counterexample :
    (combine_predictions [bareSkinPred "Acne" (1 / 100), bareSkinPred "Eczema" 80]
        [bareSkinPred "Acne" (1 / 100)]).map
        (fun p => (p.condition, p.confidence, p.cnn_prediction)) =
      [("Eczema", (80 : ℚ), false), ("Acne", (1 / 100 : ℚ), true)] ∧
    (80 : ℚ) ≠ pyRound10 (80 * (3 / 10) + 0 * (7 / 10)) ∧
    (1 / 100 : ℚ) ≠ pyRound10 ((1 / 100) * (3 / 10) + (1 / 100) * (7 / 10)) := by
  refine ⟨by decide, by decide, by decide⟩

/- =============================================================
Concrete instantiations of the universally quantified theorems
============================================================= -/

theorem C4_witness :
    (get_recommendations [breathless_pred]).urgency = "Low" :=
  (C4_urgency_characterization breathless_pred []).2.2.mpr
    ⟨by decide, by norm_num [breathless_pred]⟩

theorem C5_witness :
    (get_abcd_analysis
      "asymmetric large mole with multiple colors and black and blue shades").risk_level =
      "high" :=
  (C5_abcd_total_and_risk
      "asymmetric large mole with multiple colors and black and blue shades").2.2.2.2.2.2.1.mpr
    (by decide)

theorem C6_witness :
    (get_abcd_analysis "an uneven mole").asymmetry.score = 1 :=
  (C6_abcd_criteria "an uneven mole").1.mpr ⟨"uneven", by decide, by decide⟩

theorem C7_witness :
    filter_medical_recommendations ["Take rest", "Take 500 mg of the medication"] =
      ["Consider discussing with healthcare provider about rest"] := by
  rw [C7_filter_characterization]
  decide

theorem C10_witness :
    (get_emergency_assessment ["chest pain"]).risk_level = "IMMEDIATE" :=
  (C10_emergency_characterization ["chest pain"]).1.mpr
    ⟨"chest pain", by decide, "chest_pain", by decide, by decide⟩
